import Mathlib

/-!
Verification of the swing_trading backtest engine.

Shallow embedding of the Python sources in src/swing_trading/.  Prices,
balances and timestamps are modelled as exact rationals (`ℚ`); Python
machine floats are treated as exact arithmetic, which is the reading the
specification itself takes ("balance after N trades equals initial_balance
+ Σ(trade.pnl) exactly").

The class `StrategyEngine` (methods `add_indicators` / `generate_signal`)
is imported by `backtester.py` and `main.py` but its definition is not in
the sources; only its callers are.  `Backtester.run` reads from it a
per-bar `signal_details` dictionary with keys `signal` and `stop_loss`.
We therefore attach to every bar an arbitrary `signal : String` and
`stop_loss : Option ℚ` and quantify universally over them: any
deterministic implementation of `generate_signal` produces some such
assignment on a fixed bar sequence, so every theorem below covers it.

The `PortfolioManager` whose methods `Backtester.run` calls
(`calculate_position_size`, `update_balance_after_trade`, and the fields
`initial_balance` / `realized_pnl` read by `_generate_report`) is the
variant defined in `execution_handler.py`; the variant in
`portfolio_manager.py` (USD-routed sizing formula) is embedded separately
for the refinement comparison.
-/

namespace SwingTrading

/-- Configuration values from `ConfigurationManager` in `config.py`
that the backtest core reads. -/
structure ConfigurationManager where
  capital_base : ℚ
  risk_per_trade_percent : ℚ
  sm_short_window : Nat
  sm_long_window : Nat
  sm_atr_period : Nat
  sm_atr_multiplier : ℚ
deriving DecidableEq

/-- The concrete values assigned in `config.py` (`capital_base = 100.0`,
`risk_per_trade_percent = 2.0`, windows 10/30, ATR period 14,
multiplier 1.5). -/
def defaultConfig : ConfigurationManager :=
  { capital_base := 100
    risk_per_trade_percent := 2
    sm_short_window := 10
    sm_long_window := 30
    sm_atr_period := 14
    sm_atr_multiplier := 3 / 2 }

namespace PortfolioManagerEH

/-- Mutable state of the `PortfolioManager` class of
`execution_handler.py` (`__init__`). -/
structure State where
  balance : ℚ
  initial_balance : ℚ
  last_position_size : ℚ
  realized_pnl : ℚ
deriving DecidableEq

/-- Constructor: `balance = initial_balance = config.capital_base`,
`last_position_size = 0.0`, `realized_pnl = 0.0`. -/
def init (cfg : ConfigurationManager) : State :=
  { balance := cfg.capital_base
    initial_balance := cfg.capital_base
    last_position_size := 0
    realized_pnl := 0 }

/-- `PortfolioManager.calculate_position_size` of `execution_handler.py`:
guard `stop_loss_price >= entry_price` returns `0.0`; then
`risk_amount_dollars = balance * (risk_per_trade_percent / 100.0)`,
`risk_per_coin_dollars = entry_price - stop_loss_price`, a second guard
`risk_per_coin_dollars <= 0` returns `0.0`, else the quotient. -/
def calculate_position_size (balance risk_per_trade_percent
    entry_price stop_loss_price : ℚ) : ℚ :=
  if stop_loss_price ≥ entry_price then 0
  else
    let risk_amount_dollars := balance * (risk_per_trade_percent / 100)
    let risk_per_coin_dollars := entry_price - stop_loss_price
    if risk_per_coin_dollars ≤ 0 then 0
    else risk_amount_dollars / risk_per_coin_dollars

/-- `PortfolioManager.update_balance_after_trade` of
`execution_handler.py`: `pnl = (exit_price - entry_price) * position_size`
is added to both `balance` and `realized_pnl`. -/
def update_balance_after_trade (pm : State)
    (exit_price entry_price position_size : ℚ) : State :=
  let pnl := (exit_price - entry_price) * position_size
  { pm with
    balance := pm.balance + pnl
    realized_pnl := pm.realized_pnl + pnl }

end PortfolioManagerEH

/-- `PortfolioManager.calculate_position_size` of `portfolio_manager.py`
(the USD-routed variant): `capital_to_risk = balance *
(risk_per_trade_percent / 100)`, `stop_loss_distance = current_price -
stop_loss_price`, guard `stop_loss_distance <= 0` returns `0.0`, else
`position_size_usd = capital_to_risk / (stop_loss_distance /
current_price)` and the result is `position_size_usd / current_price`. -/
def PortfolioManagerPM.calculate_position_size (balance risk_per_trade_percent
    current_price stop_loss_price : ℚ) : ℚ :=
  let risk_per_trade_decimal := risk_per_trade_percent / 100
  let capital_to_risk := balance * risk_per_trade_decimal
  let stop_loss_distance := current_price - stop_loss_price
  if stop_loss_distance ≤ 0 then 0
  else
    let position_size_usd := capital_to_risk / (stop_loss_distance / current_price)
    position_size_usd / current_price

/-- One record of `Backtester.trades` (`entry_date`, `exit_date`, `pnl`).
`entry_date` is optional because the Python loop initialises
`entry_time = None`. -/
structure Trade where
  entry_date : Option ℚ
  exit_date : ℚ
  pnl : ℚ
deriving DecidableEq

/-- One row of the indicator-enriched frame as consumed by the loop of
`Backtester.run`, together with the `signal_details` that the (absent)
`StrategyEngine.generate_signal` yields on the prefix ending at this bar:
`signal = signal_details.get('signal')` and
`stop_loss = signal_details.get('stop_loss')` (`none` models a missing
key / `None`). -/
structure Bar where
  timestamp : ℚ
  close : ℚ
  signal : String
  stop_loss : Option ℚ
deriving DecidableEq

/-- Loop state of `Backtester.run` plus the `Backtester.trades` ledger
and its `PortfolioManager`. -/
structure BacktesterState where
  portfolio_manager : PortfolioManagerEH.State
  trades : List Trade
  in_position : Bool
  entry_price : ℚ
  stop_loss_price : Option ℚ
  position_size : ℚ
  entry_time : Option ℚ
deriving DecidableEq

namespace Backtester

/-- Initial loop state of `Backtester.run`: `in_position = False`,
`entry_price = 0.0`, `stop_loss_price = None`, `position_size = 0.0`,
`entry_time = None`, empty ledger, fresh portfolio manager. -/
def init (cfg : ConfigurationManager) : BacktesterState :=
  { portfolio_manager := PortfolioManagerEH.init cfg
    trades := []
    in_position := false
    entry_price := 0
    stop_loss_price := none
    position_size := 0
    entry_time := none }

/-- The stop-loss test `row['close'] <= stop_loss_price` (evaluated only
when `in_position`, in which case `stop_loss_price` is a number). -/
def stop_hit (sl? : Option ℚ) (close : ℚ) : Bool :=
  match sl? with
  | some sl => decide (close ≤ sl)
  | none => false

/-- Closing a position in `Backtester.run` (both the stop-loss branch and
the sell branch): one `update_balance_after_trade` call, one ledger
append, `in_position = False`.  The entry fields are not reset by the
Python code. -/
def close_out (s : BacktesterState) (b : Bar) : BacktesterState :=
  { s with
    portfolio_manager := PortfolioManagerEH.update_balance_after_trade
      s.portfolio_manager b.close s.entry_price s.position_size
    trades := s.trades ++
      [{ entry_date := s.entry_time, exit_date := b.timestamp,
         pnl := (b.close - s.entry_price) * s.position_size }]
    in_position := false }

/-- One iteration of the `for i, row in data_with_indicators.iterrows()`
loop of `Backtester.run`.  Order as in the source: stop-loss check first
(with `continue`), then the buy branch (which overwrites `entry_price`,
`entry_time` and `stop_loss_price` before the `if not stop_loss_price:
continue` falsy test, sizes the position, and enters only when
`position_size > 0`), then the sell branch, else no change. -/
def step (cfg : ConfigurationManager) (s : BacktesterState) (b : Bar) :
    BacktesterState :=
  if s.in_position = true ∧ stop_hit s.stop_loss_price b.close = true then
    close_out s b
  else if b.signal = "buy" ∧ s.in_position = false then
    let s1 := { s with
      entry_price := b.close
      entry_time := some b.timestamp
      stop_loss_price := b.stop_loss }
    match b.stop_loss with
    | none => s1
    | some sl =>
      if sl = 0 then s1
      else
        let size := PortfolioManagerEH.calculate_position_size
          s.portfolio_manager.balance cfg.risk_per_trade_percent b.close sl
        let pm' := if sl < b.close then
            { s1.portfolio_manager with last_position_size := size }
          else s1.portfolio_manager
        let s2 := { s1 with portfolio_manager := pm', position_size := size }
        if 0 < size then { s2 with in_position := true } else s2
  else if b.signal = "sell" ∧ s.in_position = true then
    close_out s b
  else s

/-- `Backtester.run`: aborts (first component `true`) when the fetched
historical data is empty, before any loop iteration; otherwise folds
`step` over the bar sequence.  The report generation at the end is pure
and embedded separately as `generate_report`. -/
def run (cfg : ConfigurationManager) (bars : List Bar) :
    Bool × BacktesterState :=
  if bars.isEmpty then (true, init cfg)
  else (false, bars.foldl (step cfg) (init cfg))

end Backtester

/-- One row of the indicator-enriched frame as read by
`SentimentMomentumStrategy.generate_signal` in `config.py` and by the
buy branch of `Trader.run` in `main.py` (`close`, `low`, the
`ATRr_{atr_period}` column, `short_sma`, `long_sma`). -/
structure LiveBar where
  close : ℚ
  low : ℚ
  atr : ℚ
  short_sma : ℚ
  long_sma : ℚ
deriving DecidableEq

/-- `SentimentMomentumStrategy.generate_signal` of `config.py`, applied
to `latest = ohlcv_df.iloc[-1]` and `previous = ohlcv_df.iloc[-2]`:
bullish crossover gated by `sentiment != 'negative'`, bearish crossover
unconditionally `'sell'`, otherwise `'hold'`. -/
def SentimentMomentumStrategy.generate_signal (latest previous : LiveBar)
    (sentiment : String) : String :=
  if latest.short_sma > latest.long_sma ∧ previous.short_sma ≤ previous.long_sma then
    if sentiment ≠ "negative" then "buy" else "hold"
  else if latest.short_sma < latest.long_sma ∧ previous.short_sma ≥ previous.long_sma then
    "sell"
  else "hold"

/-- Stop-loss price computed in the buy branch of `Trader.run` in
`main.py`: `entry_price = latest_candle['close']`, `atr_value =
latest_candle['ATRr_{period}']`, `stop_loss_price = entry_price -
(atr_value * self.config.sm_atr_multiplier)`. -/
def Trader.buy_stop_loss (latest : LiveBar) (cfg : ConfigurationManager) : ℚ :=
  latest.close - latest.atr * cfg.sm_atr_multiplier

/-- Value of the `reward_risk_ratio` field of the backtest report:
either a finite rational or the `np.inf` sentinel. -/
inductive RewardRisk where
  | value (q : ℚ)
  | posInf
deriving DecidableEq

/-- Structured content of `Backtester._generate_report`: either the
"No trades were executed" early return, or the computed statistics. -/
inductive Report where
  | no_trades
  | stats (ending_balance total_return : ℚ) (num_trades : Nat)
      (win_rate avg_win avg_loss : ℚ) (reward_risk : RewardRisk)
deriving DecidableEq

/-- The reward/risk field of a report, when the report has one. -/
def Report.rr : Report → Option RewardRisk
  | .no_trades => none
  | .stats _ _ _ _ _ _ r => some r

/-- The trade count of a report (`0` for the no-trades early return). -/
def Report.count : Report → Nat
  | .no_trades => 0
  | .stats _ _ n _ _ _ _ => n

/-- `Backtester._generate_report`: early return when `self.trades` is
empty; otherwise `wins` are the pnl values `> 0`, `losses` those `< 0`,
`total_return = (balance / initial_balance - 1) * 100`, `win_rate =
(len(wins) / num_trades) * 100` when `num_trades > 0` else `0`,
`avg_win` / `avg_loss` are means (or `0` for an empty side), and
`reward_risk_ratio = abs(avg_win / avg_loss)` when `avg_loss != 0`,
else `np.inf`. -/
def generate_report (pm : PortfolioManagerEH.State) (trades : List Trade) :
    Report :=
  if trades = [] then .no_trades
  else
    let pnl_values := trades.map Trade.pnl
    let wins := pnl_values.filter (fun p => decide (0 < p))
    let losses := pnl_values.filter (fun p => decide (p < 0))
    let total_return := (pm.balance / pm.initial_balance - 1) * 100
    let num_trades := trades.length
    let win_rate := if 0 < num_trades then
        ((wins.length : ℚ) / (num_trades : ℚ)) * 100
      else 0
    let avg_win := if wins = [] then 0 else wins.sum / (wins.length : ℚ)
    let avg_loss := if losses = [] then 0 else losses.sum / (losses.length : ℚ)
    let reward_risk := if avg_loss ≠ 0 then RewardRisk.value |avg_win / avg_loss|
      else RewardRisk.posInf
    .stats pm.balance total_return num_trades win_rate avg_win avg_loss reward_risk

/-! ## Theorems -/

/-- C4 counterexample.  The claim asserts the size is `≥ 0` for every
balance; but `execution_handler.py` computes a negative size once the
balance itself is negative (reachable after losing trades), here
`balance = -1000`, `risk = 2%`, `entry = 100`, `stop = 95` gives
`-4 < 0`. -/
theorem calculate_position_size_negative_balance :
    PortfolioManagerEH.calculate_position_size (-1000) 2 100 95 < 0 := by
  simp only [PortfolioManagerEH.calculate_position_size]
  norm_num

/-- C4 (amended).  `calculate_position_size` of `execution_handler.py`
returns `balance * (risk_per_trade_percent / 100) / (entry_price -
stop_loss_price)` whenever `entry_price - stop_loss_price > 0`, returns
`0` whenever `entry_price - stop_loss_price ≤ 0`, is nonnegative
whenever `balance` and `risk_per_trade_percent` are nonnegative (in ℚ it
is always finite), and the spec example `entry = 100`, `stop = 95`,
`balance = 1000`, `risk = 2%` yields `4`. -/
theorem calculate_position_size_spec (balance pct entry stop : ℚ) :
    (0 < entry - stop →
      PortfolioManagerEH.calculate_position_size balance pct entry stop
        = balance * (pct / 100) / (entry - stop)) ∧
    (entry - stop ≤ 0 →
      PortfolioManagerEH.calculate_position_size balance pct entry stop = 0) ∧
    (0 ≤ balance → 0 ≤ pct →
      0 ≤ PortfolioManagerEH.calculate_position_size balance pct entry stop) ∧
    PortfolioManagerEH.calculate_position_size 1000 2 100 95 = 4 := by
  refine ⟨?_, ?_, ?_, ?_⟩
  · intro h
    simp only [PortfolioManagerEH.calculate_position_size]
    rw [if_neg (by linarith), if_neg (by linarith)]
  · intro h
    simp only [PortfolioManagerEH.calculate_position_size]
    rcases le_or_lt entry stop with h' | h'
    · rw [if_pos (by linarith)]
    · rw [if_neg (by simp only [ge_iff_le, not_le]; linarith), if_pos h]
  · intro hb hp
    simp only [PortfolioManagerEH.calculate_position_size]
    split
    · exact le_refl 0
    · split
      · exact le_refl 0
      · rename_i hge hle
        apply div_nonneg
        · positivity
        · simp only [not_le] at hle
          linarith
  · simp only [PortfolioManagerEH.calculate_position_size]
    norm_num

/-- C4 witness: the proved characterisation evaluated at the spec
example and at a degenerate stop. -/
theorem calculate_position_size_spec_witness :
    PortfolioManagerEH.calculate_position_size 1000 2 100 95
      = 1000 * ((2 : ℚ) / 100) / (100 - 95) ∧
    PortfolioManagerEH.calculate_position_size 1000 2 100 100 = 0 ∧
    0 ≤ PortfolioManagerEH.calculate_position_size 1000 2 100 95 := by
  refine ⟨(calculate_position_size_spec 1000 2 100 95).1 (by norm_num),
    ((calculate_position_size_spec 1000 2 100 100).2.1 (by norm_num)),
    ((calculate_position_size_spec 1000 2 100 95).2.2.1 (by norm_num) (by norm_num))⟩

/-- C10.  The USD-routed sizer of `portfolio_manager.py` agrees with the
direct sizer of `execution_handler.py`: for positive prices with the
stop strictly below the price both equal `balance *
(risk_per_trade_percent / 100) / (price - stop)`, and on a non-positive
stop distance both return `0`. -/
theorem sizer_variants_agree (balance pct price stop : ℚ)
    (hp : 0 < price) :
    (stop < price →
      PortfolioManagerPM.calculate_position_size balance pct price stop
        = PortfolioManagerEH.calculate_position_size balance pct price stop ∧
      PortfolioManagerPM.calculate_position_size balance pct price stop
        = balance * (pct / 100) / (price - stop)) ∧
    (price - stop ≤ 0 →
      PortfolioManagerPM.calculate_position_size balance pct price stop = 0 ∧
      PortfolioManagerEH.calculate_position_size balance pct price stop = 0) := by
  constructor
  · intro hs
    have hd : price - stop ≠ 0 := by intro h; apply absurd hs; simp; linarith
    have hp' : price ≠ 0 := ne_of_gt hp
    have hpm : PortfolioManagerPM.calculate_position_size balance pct price stop
        = balance * (pct / 100) / (price - stop) := by
      simp only [PortfolioManagerPM.calculate_position_size]
      rw [if_neg (by simp only [not_le]; linarith)]
      rw [div_div, div_mul_cancel₀ _ hp']
    refine ⟨?_, hpm⟩
    rw [hpm, (calculate_position_size_spec balance pct price stop).1 (by linarith)]
  · intro hd
    constructor
    · simp only [PortfolioManagerPM.calculate_position_size]
      rw [if_pos hd]
    · exact (calculate_position_size_spec balance pct price stop).2.1 hd

/-- C10 witness: both sizers at the spec example `balance = 1000`,
`risk = 2%`, `price = 100`, `stop = 95`, and both guards at
`stop = price`. -/
theorem sizer_variants_agree_witness :
    (PortfolioManagerPM.calculate_position_size 1000 2 100 95
      = PortfolioManagerEH.calculate_position_size 1000 2 100 95 ∧
     PortfolioManagerPM.calculate_position_size 1000 2 100 95
      = 1000 * ((2 : ℚ) / 100) / (100 - 95)) ∧
    (PortfolioManagerPM.calculate_position_size 1000 2 100 100 = 0 ∧
     PortfolioManagerEH.calculate_position_size 1000 2 100 100 = 0) :=
  ⟨(sizer_variants_agree 1000 2 100 95 (by norm_num)).1 (by norm_num),
   (sizer_variants_agree 1000 2 100 100 (by norm_num)).2 (by norm_num)⟩

/-- Helper: an unvetoed bullish crossover yields a `'buy'` signal. -/
lemma generate_signal_eq_buy (latest previous : LiveBar) (sentiment : String)
    (hprev : previous.short_sma ≤ previous.long_sma)
    (hcur : latest.short_sma > latest.long_sma)
    (hsent : sentiment ≠ "negative") :
    SentimentMomentumStrategy.generate_signal latest previous sentiment = "buy" := by
  simp only [SentimentMomentumStrategy.generate_signal]
  rw [if_pos ⟨hcur, hprev⟩, if_pos hsent]

/-- C7.  `SentimentMomentumStrategy.generate_signal` returns `'buy'`
exactly on a bullish crossover with sentiment not `'negative'`, `'hold'`
on a vetoed bullish crossover, `'sell'` exactly on a bearish crossover
regardless of sentiment, and `'hold'` otherwise. -/
theorem generate_signal_spec (latest previous : LiveBar) (sentiment : String) :
    (SentimentMomentumStrategy.generate_signal latest previous sentiment = "buy"
      ↔ previous.short_sma ≤ previous.long_sma
        ∧ latest.short_sma > latest.long_sma ∧ sentiment ≠ "negative") ∧
    (SentimentMomentumStrategy.generate_signal latest previous sentiment = "sell"
      ↔ previous.short_sma ≥ previous.long_sma
        ∧ latest.short_sma < latest.long_sma) ∧
    (previous.short_sma ≤ previous.long_sma → latest.short_sma > latest.long_sma →
      sentiment = "negative" →
      SentimentMomentumStrategy.generate_signal latest previous sentiment = "hold") ∧
    (¬ (previous.short_sma ≤ previous.long_sma ∧ latest.short_sma > latest.long_sma) →
     ¬ (previous.short_sma ≥ previous.long_sma ∧ latest.short_sma < latest.long_sma) →
      SentimentMomentumStrategy.generate_signal latest previous sentiment = "hold") := by
  simp only [SentimentMomentumStrategy.generate_signal]
  by_cases hbull : latest.short_sma > latest.long_sma
      ∧ previous.short_sma ≤ previous.long_sma
  · rw [if_pos hbull]
    by_cases hneg : sentiment = "negative"
    · rw [if_neg (by simpa using hneg)]
      refine ⟨?_, ?_, fun _ _ _ => rfl, fun h _ => absurd ⟨hbull.2, hbull.1⟩ h⟩
      · simp only [String.reduceEq, false_iff]
        rintro ⟨-, -, hne⟩; exact hne hneg
      · simp only [String.reduceEq, false_iff]
        rintro ⟨-, hlt⟩; exact absurd hbull.1 (by simp; linarith)
    · rw [if_pos (by simpa using hneg)]
      refine ⟨?_, ?_, fun _ _ h => absurd h hneg, fun h _ => absurd ⟨hbull.2, hbull.1⟩ h⟩
      · simp only [true_iff]
        exact ⟨hbull.2, hbull.1, hneg⟩
      · simp only [String.reduceEq, false_iff]
        rintro ⟨-, hlt⟩; exact absurd hbull.1 (by simp; linarith)
  · rw [if_neg hbull]
    by_cases hbear : latest.short_sma < latest.long_sma
        ∧ previous.short_sma ≥ previous.long_sma
    · rw [if_pos hbear]
      refine ⟨?_, ?_, ?_, fun _ h => absurd ⟨hbear.2, hbear.1⟩ h⟩
      · simp only [String.reduceEq, false_iff]
        rintro ⟨-, hgt, -⟩; exact absurd hgt (by simp; linarith [hbear.1])
      · simp only [true_iff]
        exact ⟨hbear.2, hbear.1⟩
      · intro _ hgt _; exact absurd hgt (by simp; linarith [hbear.1])
    · rw [if_neg hbear]
      refine ⟨?_, ?_, fun _ _ _ => rfl, fun _ _ => rfl⟩
      · simp only [String.reduceEq, false_iff]
        rintro ⟨hle, hgt, -⟩; exact hbull ⟨hgt, hle⟩
      · simp only [String.reduceEq, false_iff]
        rintro ⟨hge, hlt⟩; exact hbear ⟨hlt, hge⟩

/-- C7 witness: the characterisation applied on concrete windows — a
bullish crossover with neutral sentiment yields `'buy'`, the same window
with negative sentiment yields `'hold'`, a bearish crossover with
negative sentiment still yields `'sell'`, and a crossover-free window
yields `'hold'`. -/
theorem generate_signal_spec_witness :
    SentimentMomentumStrategy.generate_signal
      ⟨100, 90, 2, 10, 5⟩ ⟨99, 89, 2, 5, 5⟩ "neutral" = "buy" ∧
    SentimentMomentumStrategy.generate_signal
      ⟨100, 90, 2, 10, 5⟩ ⟨99, 89, 2, 5, 5⟩ "negative" = "hold" ∧
    SentimentMomentumStrategy.generate_signal
      ⟨100, 90, 2, 5, 10⟩ ⟨99, 89, 2, 5, 5⟩ "negative" = "sell" ∧
    SentimentMomentumStrategy.generate_signal
      ⟨100, 90, 2, 10, 5⟩ ⟨99, 89, 2, 6, 5⟩ "neutral" = "hold" :=
  ⟨(generate_signal_spec ⟨100, 90, 2, 10, 5⟩ ⟨99, 89, 2, 5, 5⟩ "neutral").1.mpr
      ⟨by norm_num, by norm_num, by simp⟩,
   (generate_signal_spec ⟨100, 90, 2, 10, 5⟩ ⟨99, 89, 2, 5, 5⟩ "negative").2.2.1
      (by norm_num) (by norm_num) rfl,
   (generate_signal_spec ⟨100, 90, 2, 5, 10⟩ ⟨99, 89, 2, 5, 5⟩ "negative").2.1.mpr
      (by norm_num),
   (generate_signal_spec ⟨100, 90, 2, 10, 5⟩ ⟨99, 89, 2, 6, 5⟩ "neutral").2.2.2
      (by norm_num) (by norm_num)⟩

/-- C6 counterexample.  On a bar with `close = 100`, `low = 90`,
`ATR = 2` and the configured multiplier `1.5`, a bullish crossover with
non-negative sentiment does fire a `'buy'`, but the stop-loss computed by
the buy branch of `Trader.run` in `main.py` is `close - ATR * mult = 97`,
not `low - ATR * mult = 87` as the claim states. -/
theorem trader_stop_loss_not_low_based :
    SentimentMomentumStrategy.generate_signal
      ⟨100, 90, 2, 10, 5⟩ ⟨99, 89, 2, 5, 5⟩ "neutral" = "buy" ∧
    Trader.buy_stop_loss ⟨100, 90, 2, 10, 5⟩ defaultConfig
      ≠ (90 : ℚ) - 2 * defaultConfig.sm_atr_multiplier := by
  constructor
  · exact generate_signal_eq_buy _ _ _ (by norm_num) (by norm_num) (by simp)
  · simp only [Trader.buy_stop_loss, defaultConfig]
    norm_num

/-- C6 (amended).  On every bullish crossover with sentiment not
classified negative the signal is `'buy'`, and the stop-loss attached by
`Trader.run` is the current close minus `ATR[t] * atr_multiplier`
(`main.py` uses the close, not the low). -/
theorem trader_buy_stop_loss_spec (latest previous : LiveBar)
    (sentiment : String) (cfg : ConfigurationManager)
    (hprev : previous.short_sma ≤ previous.long_sma)
    (hcur : latest.short_sma > latest.long_sma)
    (hsent : sentiment ≠ "negative") :
    SentimentMomentumStrategy.generate_signal latest previous sentiment = "buy" ∧
    Trader.buy_stop_loss latest cfg
      = latest.close - latest.atr * cfg.sm_atr_multiplier :=
  ⟨generate_signal_eq_buy latest previous sentiment hprev hcur hsent, rfl⟩

/-- C6 witness: the amended statement at the concrete crossover window
with neutral sentiment and the default configuration. -/
theorem trader_buy_stop_loss_spec_witness :
    SentimentMomentumStrategy.generate_signal
      ⟨100, 90, 2, 10, 5⟩ ⟨99, 89, 2, 5, 5⟩ "neutral" = "buy" ∧
    Trader.buy_stop_loss ⟨100, 90, 2, 10, 5⟩ defaultConfig
      = (100 : ℚ) - 2 * defaultConfig.sm_atr_multiplier :=
  trader_buy_stop_loss_spec ⟨100, 90, 2, 10, 5⟩ ⟨99, 89, 2, 5, 5⟩ "neutral"
    defaultConfig (by norm_num) (by norm_num) (by simp)

/-- Helper: the stop-loss branch of `Backtester.step` fires exactly on
its guard. -/
lemma Backtester.step_of_stop (cfg : ConfigurationManager)
    (s : BacktesterState) (b : Bar)
    (h : s.in_position = true ∧ Backtester.stop_hit s.stop_loss_price b.close = true) :
    Backtester.step cfg s b = Backtester.close_out s b := by
  unfold Backtester.step
  rw [if_pos h]

/-- Helper: with no stop hit and no buy/sell branch taken,
`Backtester.step` leaves the state unchanged. -/
lemma Backtester.step_of_none (cfg : ConfigurationManager)
    (s : BacktesterState) (b : Bar)
    (h1 : ¬ (s.in_position = true ∧ Backtester.stop_hit s.stop_loss_price b.close = true))
    (h2 : ¬ (b.signal = "buy" ∧ s.in_position = false))
    (h3 : ¬ (b.signal = "sell" ∧ s.in_position = true)) :
    Backtester.step cfg s b = s := by
  unfold Backtester.step
  rw [if_neg h1, if_neg h2, if_neg h3]

/-- C1.  While a position is open: a `'buy'` signal on a bar whose close
does not hit the stop leaves the whole loop state unchanged (no
transition, no portfolio-manager mutation — hence no sizing-call effect —
no ledger append), and whenever the position is still open after a step
the state is unchanged, so a second position is never created before the
first is closed.  At most one position exists at any bar index because
the loop state carries a single `in_position` flag and a single set of
entry fields. -/
theorem single_position_invariant (cfg : ConfigurationManager)
    (s : BacktesterState) (b : Bar) (h : s.in_position = true) :
    (Backtester.stop_hit s.stop_loss_price b.close = false → b.signal = "buy" →
      Backtester.step cfg s b = s) ∧
    ((Backtester.step cfg s b).in_position = true → Backtester.step cfg s b = s) := by
  have h2 : ¬ (b.signal = "buy" ∧ s.in_position = false) := by
    rintro ⟨-, hflat⟩
    rw [h] at hflat
    exact absurd hflat (by decide)
  constructor
  · intro hstop hbuy
    apply Backtester.step_of_none
    · rintro ⟨-, hs⟩
      rw [hstop] at hs
      exact absurd hs (by decide)
    · exact h2
    · rintro ⟨hsell, -⟩
      rw [hbuy] at hsell
      exact absurd hsell (by decide)
  · intro hpos
    by_cases c1 : s.in_position = true ∧ Backtester.stop_hit s.stop_loss_price b.close = true
    · exfalso
      rw [Backtester.step_of_stop cfg s b c1] at hpos
      simp only [Backtester.close_out] at hpos
      exact absurd hpos (by decide)
    · by_cases c3 : b.signal = "sell" ∧ s.in_position = true
      · exfalso
        unfold Backtester.step at hpos
        rw [if_neg c1, if_neg h2, if_pos c3] at hpos
        simp only [Backtester.close_out] at hpos
        exact absurd hpos (by decide)
      · exact Backtester.step_of_none cfg s b c1 h2 c3

/-- C1 witness: a long state (entry 98, stop 95, size 1) receiving a
`'buy'` signal on a bar closing at 100 is left exactly unchanged. -/
theorem single_position_invariant_witness :
    Backtester.step defaultConfig
      ⟨⟨100, 100, 0, 0⟩, [], true, 98, some 95, 1, some 0⟩
      ⟨1, 100, "buy", some 97⟩
      = ⟨⟨100, 100, 0, 0⟩, [], true, 98, some 95, 1, some 0⟩ :=
  (single_position_invariant defaultConfig
      ⟨⟨100, 100, 0, 0⟩, [], true, 98, some 95, 1, some 0⟩
      ⟨1, 100, "buy", some 97⟩ rfl).1
    (by simp only [Backtester.stop_hit]; norm_num) rfl

/-- C2.  With a position open and the bar close at or below the stop,
the step closes out: one `update_balance_after_trade` call (balance
moves by exactly the trade pnl), exactly one appended trade with
`exit = close`, the position flag drops, and the bar's signal and
stop-loss fields are never consulted — the step result is identical for
every signal on that bar. -/
theorem stop_loss_priority (cfg : ConfigurationManager)
    (s : BacktesterState) (b : Bar) (sl : ℚ) (h : s.in_position = true)
    (hsl : s.stop_loss_price = some sl) (hhit : b.close ≤ sl) :
    Backtester.step cfg s b = Backtester.close_out s b ∧
    (Backtester.close_out s b).portfolio_manager.balance
      = s.portfolio_manager.balance + (b.close - s.entry_price) * s.position_size ∧
    (Backtester.close_out s b).trades
      = s.trades ++ [⟨s.entry_time, b.timestamp,
          (b.close - s.entry_price) * s.position_size⟩] ∧
    (Backtester.close_out s b).in_position = false ∧
    (∀ sig sl', Backtester.step cfg s { b with signal := sig, stop_loss := sl' }
      = Backtester.step cfg s b) := by
  have hs : Backtester.stop_hit s.stop_loss_price b.close = true := by
    rw [hsl]
    simp only [Backtester.stop_hit, decide_eq_true_eq]
    exact hhit
  refine ⟨Backtester.step_of_stop cfg s b ⟨h, hs⟩, rfl, rfl, rfl, ?_⟩
  intro sig sl'
  rw [Backtester.step_of_stop cfg s b ⟨h, hs⟩,
    Backtester.step_of_stop cfg s { b with signal := sig, stop_loss := sl' } ⟨h, hs⟩]
  rfl

/-- C2 witness: a long state with stop 95 on a bar closing at 90 whose
signal is `'buy'` is closed out by the stop, ignoring the signal. -/
theorem stop_loss_priority_witness :
    Backtester.step defaultConfig
      ⟨⟨100, 100, 0, 0⟩, [], true, 98, some 95, 1, some 0⟩
      ⟨2, 90, "buy", some 50⟩
      = Backtester.close_out
          ⟨⟨100, 100, 0, 0⟩, [], true, 98, some 95, 1, some 0⟩
          ⟨2, 90, "buy", some 50⟩ :=
  (stop_loss_priority defaultConfig
      ⟨⟨100, 100, 0, 0⟩, [], true, 98, some 95, 1, some 0⟩
      ⟨2, 90, "buy", some 50⟩ 95 rfl rfl (by norm_num)).1

/-- Helper: every loop step either leaves the whole ledger (balance,
realized pnl, initial balance, trade list) untouched, or appends exactly
one trade and moves balance and realized pnl by exactly that trade's
pnl. -/
lemma Backtester.step_ledger_characterization (cfg : ConfigurationManager)
    (s : BacktesterState) (b : Bar) :
    ((Backtester.step cfg s b).portfolio_manager.balance
        = s.portfolio_manager.balance ∧
     (Backtester.step cfg s b).portfolio_manager.realized_pnl
        = s.portfolio_manager.realized_pnl ∧
     (Backtester.step cfg s b).portfolio_manager.initial_balance
        = s.portfolio_manager.initial_balance ∧
     (Backtester.step cfg s b).trades = s.trades) ∨
    (∃ t : Trade, (Backtester.step cfg s b).trades = s.trades ++ [t] ∧
     (Backtester.step cfg s b).portfolio_manager.balance
        = s.portfolio_manager.balance + t.pnl ∧
     (Backtester.step cfg s b).portfolio_manager.realized_pnl
        = s.portfolio_manager.realized_pnl + t.pnl ∧
     (Backtester.step cfg s b).portfolio_manager.initial_balance
        = s.portfolio_manager.initial_balance) := by
  unfold Backtester.step
  split
  · exact Or.inr ⟨⟨s.entry_time, b.timestamp,
      (b.close - s.entry_price) * s.position_size⟩, rfl, rfl, rfl, rfl⟩
  · split
    · cases b.stop_loss with
      | none => exact Or.inl ⟨rfl, rfl, rfl, rfl⟩
      | some sl =>
        dsimp only
        split
        · exact Or.inl ⟨rfl, rfl, rfl, rfl⟩
        · split
          · split
            · exact Or.inl ⟨rfl, rfl, rfl, rfl⟩
            · exact Or.inl ⟨rfl, rfl, rfl, rfl⟩
          · split
            · exact Or.inl ⟨rfl, rfl, rfl, rfl⟩
            · exact Or.inl ⟨rfl, rfl, rfl, rfl⟩
    · split
      · exact Or.inr ⟨⟨s.entry_time, b.timestamp,
          (b.close - s.entry_price) * s.position_size⟩, rfl, rfl, rfl, rfl⟩
      · exact Or.inl ⟨rfl, rfl, rfl, rfl⟩

/-- Helper: the ledger bookkeeping invariant is preserved by folding the
loop step over any bar list. -/
lemma Backtester.foldl_ledger (cfg : ConfigurationManager) (l : List Bar)
    (s : BacktesterState)
    (h3 : s.portfolio_manager.initial_balance = cfg.capital_base)
    (h1 : s.portfolio_manager.balance
      = cfg.capital_base + (s.trades.map Trade.pnl).sum)
    (h2 : s.portfolio_manager.realized_pnl = (s.trades.map Trade.pnl).sum) :
    (l.foldl (Backtester.step cfg) s).portfolio_manager.initial_balance
      = cfg.capital_base ∧
    (l.foldl (Backtester.step cfg) s).portfolio_manager.balance
      = cfg.capital_base
        + ((l.foldl (Backtester.step cfg) s).trades.map Trade.pnl).sum ∧
    (l.foldl (Backtester.step cfg) s).portfolio_manager.realized_pnl
      = ((l.foldl (Backtester.step cfg) s).trades.map Trade.pnl).sum := by
  induction l generalizing s with
  | nil => exact ⟨h3, h1, h2⟩
  | cons b l ih =>
    simp only [List.foldl_cons]
    rcases Backtester.step_ledger_characterization cfg s b with
      ⟨hb, hr, hi, ht⟩ | ⟨t, ht, hb, hr, hi⟩
    · exact ih _ (by rw [hi, h3]) (by rw [hb, ht, h1]) (by rw [hr, ht, h2])
    · refine ih _ (by rw [hi, h3]) ?_ ?_
      · rw [hb, ht, h1, List.map_append, List.sum_append]
        simp only [List.map_cons, List.map_nil, List.sum_cons, List.sum_nil]
        ring
      · rw [hr, ht, h2, List.map_append, List.sum_append]
        simp only [List.map_cons, List.map_nil, List.sum_cons, List.sum_nil]
        ring

/-- C3.  `Backtester.run` is the fold of the loop step from the initial
state; at every prefix of the run (hence after every trade close and at
the end) the balance equals `capital_base` (the immutable
`initial_balance`) plus the sum of the pnl of the trades closed so far,
and `realized_pnl` equals that same sum; and every single step either
leaves balance and ledger untouched or performs exactly one trade-close
update (one appended trade whose pnl is exactly the balance delta). -/
theorem ledger_consistency (cfg : ConfigurationManager) (bars : List Bar)
    (n : Nat) :
    (Backtester.run cfg bars).2
      = bars.foldl (Backtester.step cfg) (Backtester.init cfg) ∧
    (let s := (bars.take n).foldl (Backtester.step cfg) (Backtester.init cfg)
     s.portfolio_manager.initial_balance = cfg.capital_base ∧
     s.portfolio_manager.balance
       = cfg.capital_base + (s.trades.map Trade.pnl).sum ∧
     s.portfolio_manager.realized_pnl = (s.trades.map Trade.pnl).sum) ∧
    (∀ (s : BacktesterState) (b : Bar),
      ((Backtester.step cfg s b).portfolio_manager.balance
          = s.portfolio_manager.balance ∧
       (Backtester.step cfg s b).trades = s.trades) ∨
      (∃ t : Trade, (Backtester.step cfg s b).trades = s.trades ++ [t] ∧
        (Backtester.step cfg s b).portfolio_manager.balance
          = s.portfolio_manager.balance + t.pnl)) := by
  refine ⟨?_, ?_, ?_⟩
  · cases bars with
    | nil => simp [Backtester.run]
    | cons b l => simp [Backtester.run]
  · exact Backtester.foldl_ledger cfg (bars.take n) (Backtester.init cfg)
      rfl (by simp [Backtester.init, PortfolioManagerEH.init]) rfl
  · intro s b
    rcases Backtester.step_ledger_characterization cfg s b with
      ⟨hb, -, -, ht⟩ | ⟨t, ht, hb, -, -⟩
    · exact Or.inl ⟨hb, ht⟩
    · exact Or.inr ⟨t, ht, hb⟩

/-- C5 counterexample.  A `'buy'` with the non-positive stop-loss `-5`
is not discarded: Python's falsy test `if not stop_loss_price` only
catches `None` and `0.0`, so on a single-bar run the backtester opens a
position against a negative stop (the sizer is happy because the stop is
below the entry). -/
theorem buy_negative_stop_opens_position :
    ((-5 : ℚ) ≤ 0) ∧
    (Backtester.run defaultConfig
      [{ timestamp := 0, close := 100, signal := "buy", stop_loss := some (-5) }]
      ).2.in_position = true := by
  refine ⟨by norm_num, ?_⟩
  simp only [Backtester.run, Backtester.step, Backtester.init, Backtester.stop_hit,
    PortfolioManagerEH.calculate_position_size, PortfolioManagerEH.init,
    defaultConfig, List.foldl, List.isEmpty]
  norm_num

/-- C5 (amended).  While flat, a `'buy'` whose stop-loss is missing
(`None`) or zero is discarded by the falsy test and treated as hold: no
position is opened, no portfolio-manager mutation and no trade occurs
for that bar (only the scratch entry fields are overwritten).  A
negative stop-loss, however, passes the falsy test and is not
discarded. -/
theorem buy_without_stop_is_discarded (cfg : ConfigurationManager)
    (s : BacktesterState) (b : Bar) (hflat : s.in_position = false)
    (hbuy : b.signal = "buy")
    (hsl : b.stop_loss = none ∨ b.stop_loss = some 0) :
    (Backtester.step cfg s b).in_position = false ∧
    (Backtester.step cfg s b).portfolio_manager = s.portfolio_manager ∧
    (Backtester.step cfg s b).trades = s.trades := by
  have h1 : ¬ (s.in_position = true
      ∧ Backtester.stop_hit s.stop_loss_price b.close = true) := by
    rintro ⟨hp, -⟩
    rw [hflat] at hp
    exact absurd hp (by decide)
  unfold Backtester.step
  rw [if_neg h1, if_pos ⟨hbuy, hflat⟩]
  rcases hsl with hsl | hsl <;> rw [hsl]
  · exact ⟨hflat, rfl, rfl⟩
  · dsimp only
    rw [if_pos rfl]
    exact ⟨hflat, rfl, rfl⟩

/-- C5 witness: from the initial flat state, a `'buy'` bar with no
stop-loss leaves the position closed, the portfolio untouched and the
ledger empty. -/
theorem buy_without_stop_is_discarded_witness :
    (Backtester.step defaultConfig (Backtester.init defaultConfig)
      ⟨0, 100, "buy", none⟩).in_position = false ∧
    (Backtester.step defaultConfig (Backtester.init defaultConfig)
      ⟨0, 100, "buy", none⟩).portfolio_manager
      = (Backtester.init defaultConfig).portfolio_manager ∧
    (Backtester.step defaultConfig (Backtester.init defaultConfig)
      ⟨0, 100, "buy", none⟩).trades = (Backtester.init defaultConfig).trades :=
  buy_without_stop_is_discarded defaultConfig (Backtester.init defaultConfig)
    ⟨0, 100, "buy", none⟩ rfl rfl (Or.inl rfl)

/-- C9 counterexample.  A one-bar sequence is shorter than the longest
indicator window (`sm_long_window = 30`), yet `Backtester.run` does not
abort: the only fatal check in the code is `historical_data.empty`. -/
theorem short_sequence_does_not_abort :
    ([({ timestamp := 0, close := 100, signal := "hold", stop_loss := none } : Bar)].length
      < defaultConfig.sm_long_window) ∧
    (Backtester.run defaultConfig
      [{ timestamp := 0, close := 100, signal := "hold", stop_loss := none }]).1 = false := by
  constructor
  · simp [defaultConfig]
  · rfl

/-- C9 (amended).  Only an empty bar sequence aborts the run, before any
loop iteration, with zero trades and the balance still `capital_base`;
a non-empty sequence — however short — is not aborted, but when every
bar's decision is `'hold'` (as the spec prescribes for warm-up bars
whose indicators are undefined) the run completes with zero trades and
an unmutated balance. -/
theorem empty_or_insufficient_bars (cfg : ConfigurationManager)
    (bars : List Bar) :
    (bars = [] →
      Backtester.run cfg bars = (true, Backtester.init cfg) ∧
      (Backtester.run cfg bars).2.trades = [] ∧
      (Backtester.run cfg bars).2.portfolio_manager.balance = cfg.capital_base) ∧
    (bars ≠ [] → (∀ b ∈ bars, b.signal = "hold") →
      (Backtester.run cfg bars).1 = false ∧
      (Backtester.run cfg bars).2.trades = [] ∧
      (Backtester.run cfg bars).2.portfolio_manager.balance = cfg.capital_base) := by
  constructor
  · rintro rfl
    exact ⟨rfl, rfl, rfl⟩
  · intro hne hhold
    have hfold : ∀ (l : List Bar) (s : BacktesterState),
        (∀ b ∈ l, b.signal = "hold") → s.in_position = false →
        l.foldl (Backtester.step cfg) s = s := by
      intro l
      induction l with
      | nil => intro s _ _; rfl
      | cons b l ih =>
        intro s hl hs
        have hstep : Backtester.step cfg s b = s := by
          apply Backtester.step_of_none
          · rintro ⟨hp, -⟩
            rw [hs] at hp
            exact absurd hp (by decide)
          · rintro ⟨hb, -⟩
            rw [hl b (List.mem_cons_self b l)] at hb
            exact absurd hb (by decide)
          · rintro ⟨hb, -⟩
            rw [hl b (List.mem_cons_self b l)] at hb
            exact absurd hb (by decide)
        rw [List.foldl_cons, hstep]
        exact ih s (fun x hx => hl x (List.mem_cons_of_mem b hx)) hs
    have hrun : Backtester.run cfg bars = (false, Backtester.init cfg) := by
      unfold Backtester.run
      rw [if_neg (by simpa [List.isEmpty_iff] using hne)]
      rw [hfold bars (Backtester.init cfg) hhold rfl]
    rw [hrun]
    exact ⟨rfl, rfl, rfl⟩

/-- C9 witness: the amended statement at the empty sequence and at a
one-bar all-hold sequence, under the default configuration. -/
theorem empty_or_insufficient_bars_witness :
    (Backtester.run defaultConfig [] = (true, Backtester.init defaultConfig) ∧
     (Backtester.run defaultConfig []).2.trades = [] ∧
     (Backtester.run defaultConfig []).2.portfolio_manager.balance
       = defaultConfig.capital_base) ∧
    ((Backtester.run defaultConfig [⟨0, 100, "hold", none⟩]).1 = false ∧
     (Backtester.run defaultConfig [⟨0, 100, "hold", none⟩]).2.trades = [] ∧
     (Backtester.run defaultConfig
       [⟨0, 100, "hold", none⟩]).2.portfolio_manager.balance
       = defaultConfig.capital_base) :=
  ⟨(empty_or_insufficient_bars defaultConfig []).1 rfl,
   (empty_or_insufficient_bars defaultConfig [⟨0, 100, "hold", none⟩]).2
     (by simp) (by simp)⟩

/-- C8.  The report generator is a total function with guarded edge
cases: an empty trade list yields the explicit no-trades report (no
ratio statistics are computed), and a non-empty trade list containing no
losing trade yields the `+infinity` sentinel as reward/risk value rather
than a division error. -/
theorem report_edge_cases (pm : PortfolioManagerEH.State)
    (trades : List Trade) :
    (trades = [] → generate_report pm trades = Report.no_trades) ∧
    (trades ≠ [] → (∀ t ∈ trades, 0 ≤ t.pnl) →
      (generate_report pm trades).rr = some RewardRisk.posInf ∧
      (generate_report pm trades).count = trades.length) := by
  constructor
  · intro h
    simp only [generate_report, if_pos h]
  · intro hne hpos
    have hlosses : (trades.map Trade.pnl).filter (fun p => decide (p < 0)) = [] := by
      rw [List.filter_eq_nil_iff]
      intro p hp
      simp only [List.mem_map] at hp
      obtain ⟨t, ht, rfl⟩ := hp
      simp only [decide_eq_true_eq, not_lt]
      exact hpos t ht
    simp only [generate_report, if_neg hne, hlosses, Report.rr, Report.count]
    norm_num

/-- C8 witness: the spec example — two winning trades of pnl 10 each and
no losses gives the infinity sentinel, and the empty ledger gives the
no-trades report. -/
theorem report_edge_cases_witness :
    generate_report (PortfolioManagerEH.init defaultConfig) [] = Report.no_trades ∧
    (generate_report (PortfolioManagerEH.init defaultConfig)
      [⟨some 0, 1, 10⟩, ⟨some 2, 3, 10⟩]).rr = some RewardRisk.posInf :=
  ⟨(report_edge_cases (PortfolioManagerEH.init defaultConfig) []).1 rfl,
   ((report_edge_cases (PortfolioManagerEH.init defaultConfig)
      [⟨some 0, 1, 10⟩, ⟨some 2, 3, 10⟩]).2 (by simp)
      (by intro t ht; simp at ht; rcases ht with h | h <;> rw [h] <;> norm_num)).1⟩

end SwingTrading
